import Mathlib

/-!
Shallow embedding of the statement/cursor subsystem implemented in
`c_src/dpiStmt.c` (ODPI-C statement engine), together with proofs about the
behaviour of its bind registry, execution controller, fetch buffer
controller, scroll positioning, batch-error collector and lifecycle
manager.

The low-level protocol layer (the `dpiOci__*` calls), the value-resource
subsystem (`dpiVar__*`), the generic handle/refcount scaffold (`dpiGen__*`)
and the connection manager are external collaborators of this core (spec
sections 1 and 6).  They are modelled as environments: each protocol call's
outcome (success, failure, attribute values read back) is supplied by an
environment structure, and the embedding sequences those outcomes exactly
as the C control flow does.  Reference counts held on shared value
resources are modelled as an explicit counter map which the embedded
`dpiGen__setRefCount` calls adjust.
-/

set_option maxHeartbeats 1000000

namespace OracleNif

/-- Statement type constant for queries (`DPI_STMT_TYPE_SELECT`). -/
def DPI_STMT_TYPE_SELECT : Nat := 1

/-- Statement type constant for PL/SQL blocks (`DPI_STMT_TYPE_BEGIN`). -/
def DPI_STMT_TYPE_BEGIN : Nat := 8

/-- Statement type constant for PL/SQL blocks (`DPI_STMT_TYPE_DECLARE`). -/
def DPI_STMT_TYPE_DECLARE : Nat := 9

/-- Statement type constant for PL/SQL calls (`DPI_STMT_TYPE_CALL`). -/
def DPI_STMT_TYPE_CALL : Nat := 10

/-- Default fetch array size assigned by `dpiStmt__allocate`. -/
def DPI_DEFAULT_FETCH_ARRAY_SIZE : Nat := 100

/-- Error outcomes visible at the dpiStmt layer.  `ociError code` carries the
server error code of a failed protocol call (`error->buffer->code` in the
source); `ociFail` stands for a failed protocol call whose server code is
never inspected by the statement code.  `varError` stands for a failure
propagated from the external value-resource subsystem. -/
inductive DpiErr where
  | noMemory
  | notSupported
  | invalidArgument
  | stmtClosed
  | notConnected
  | invalidHandle
  | arraySizeTooSmall
  | arraySizeTooBig
  | scrollOutOfRS
  | invalidIndex (i : Nat)
  | cannotGetRowOffset
  | queryPositionInvalid
  | varError
  | ociFail
  | ociError (code : Nat)
deriving DecidableEq, Repr

/-- One element of the bind registry (`dpiBindVar` in the source): a locator
that is either a 1-based position or a name with explicit length, plus an
optional reference to a bound value resource (identified by a numeric id). -/
structure BindVarEntry where
  pos : Nat := 0
  name : Option (List Char) := none
  nameLength : Nat := 0
  var : Option Nat := none
deriving DecidableEq, Repr, Inhabited

/-- One collected batch error record (the fields of `dpiErrorBuffer` that the
statement code itself writes: the DML row offset). -/
structure BatchErrorRec where
  rowOffset : Int := 0
deriving DecidableEq, Repr, Inhabited

/-- Attributes of an external value resource (`dpiVar`) that the statement
code reads or writes.  `bindsSelf` records whether some element of the
variable's external data is a REF-cursor reference to the statement being
executed (the `data->value.asStmt == stmt` check); `setValueOk` and
`getValueOk` give the outcomes of the external `dpiVar__setValue` /
`dpiVar__getValue` transfers. -/
structure VarInfo where
  isDynamic : Bool := false
  charsetImplicit : Bool := true
  typeSizeInBytes : Nat := 1
  sizeInBytes : Nat := 0
  hasObjectIndicator : Bool := false
  maxArraySize : Nat := 1
  actualArraySize : Nat := 0
  requiresPreFetch : Bool := false
  bindsSelf : Bool := false
  setValueOk : Bool := true
  getValueOk : Bool := true
deriving DecidableEq, Repr, Inhabited

/-- Map from value-resource id to its attributes. -/
abbrev VarMap := Nat → VarInfo

/-- Pointwise update of a variable map. -/
def updVar (m : VarMap) (k : Nat) (v : VarInfo) : VarMap :=
  fun x => if x = k then v else m x

/-- Reference counts of the shared resources the statement touches: one
counter per value resource, one for the owning connection, plus the
connection's open-child count which `dpiStmt__close` decrements. -/
structure Refs where
  var : Nat → Int
  conn : Int
  connChildren : Nat

/-- Adjust the reference count of one value resource
(`dpiGen__setRefCount(var, error, d)`). -/
def adjVarRef (r : Refs) (k : Nat) (d : Int) : Refs :=
  { r with var := fun x => if x = k then r.var x + d else r.var x }

/-- The statement state (`dpiStmt` in the source).  Pointer-valued fields are
modelled by presence flags (`handle`, `connPresent`) or by lists
(`bindVars`, `queryVars`, `batchErrors`); `queryInfoPresent` models the
`stmt->queryInfo != NULL` test and `queryObjTypes` the object-type
references held by the query metadata descriptors. -/
structure DpiStmt where
  handle : Bool := true
  isOwned : Bool := false
  connPresent : Bool := true
  connHandle : Bool := true
  connClosing : Bool := false
  statementType : Nat := 0
  scrollable : Bool := false
  isReturning : Bool := false
  deleteFromCache : Bool := false
  fetchArraySize : Nat := DPI_DEFAULT_FETCH_ARRAY_SIZE
  rowCount : Nat := 0
  bufferMinRow : Nat := 0
  bufferRowCount : Nat := 0
  bufferRowIndex : Nat := 0
  hasRowsToFetch : Bool := false
  allocatedBindVars : Nat := 0
  bindVars : List BindVarEntry := []
  queryInfoPresent : Bool := false
  numQueryVars : Nat := 0
  queryVars : List (Option Nat) := []
  queryObjTypes : List (Option Nat) := []
  numBatchErrors : Nat := 0
  batchErrors : List BatchErrorRec := []
deriving DecidableEq, Repr, Inhabited

/-- Environment for one `dpiStmt__bind` call: outcomes of the external
allocations and of each protocol call the bind sequence can issue.  The
default environment makes every external step succeed. -/
structure BindEnv where
  allocOk : Bool := true
  nameAllocOk : Bool := true
  convertLobErr : Option DpiErr := none
  bindCallErr : Option DpiErr := none
  charsetErr : Option DpiErr := none
  maxSizeErr : Option DpiErr := none
  bindObjErr : Option DpiErr := none
  bindDynErr : Option DpiErr := none
deriving Repr, Inhabited

/-- Result of a bind operation: status, updated statement, variable map and
reference counts, and the number of protocol calls issued on the bind
handle (`dpiOci__bindByPos/Name`, attribute sets, object and dynamic bind
registration). -/
structure BindOut where
  res : Except DpiErr Unit
  stmt : DpiStmt
  vars : VarMap
  refs : Refs
  ociCalls : Nat

/-- Lookup predicate of the bind registry scan in `dpiStmt__bind`: position
and name length must agree, and for name-addressed locators the first
`nameLength` bytes of the name must agree (`strncmp`). -/
def bindVarMatches (e : BindVarEntry) (pos nameLength : Nat) (name : List Char) : Bool :=
  e.pos == pos && e.nameLength == nameLength &&
    (nameLength == 0 || (e.name.getD []) == name.take nameLength)

/-- Tail of `dpiStmt__bind` once the registry entry at index `idx` has been
settled (found with its previous variable released, or freshly appended):
PL/SQL LOB promotion for dynamic variables, reference retention, in-place
attachment of the new variable, the protocol bind call and the post-bind
attribute propagation. -/
def dpiStmt__bindPerform (stmt : DpiStmt) (vars : VarMap) (refs : Refs)
    (varId : Nat) (addReference : Bool) (idx : Nat) (env : BindEnv) : BindOut :=
  let vi := vars varId
  let isPlsql := stmt.statementType = DPI_STMT_TYPE_BEGIN ∨
      stmt.statementType = DPI_STMT_TYPE_DECLARE ∨
      stmt.statementType = DPI_STMT_TYPE_CALL
  if vi.isDynamic ∧ isPlsql ∧ env.convertLobErr.isSome then
    ⟨.error (env.convertLobErr.getD .varError), stmt, vars, refs, 0⟩
  else
    let refs1 := if addReference then adjVarRef refs varId 1 else refs
    let e0 := stmt.bindVars.getD idx default
    let stmt1 := { stmt with bindVars := stmt.bindVars.set idx { e0 with var := some varId } }
    let dynamicBind := stmt1.isReturning ∨ vi.isDynamic
    match env.bindCallErr with
    | some e => ⟨.error e, stmt1, vars, refs1, 1⟩
    | none =>
      if ¬ vi.charsetImplicit ∧ env.charsetErr.isSome then
        ⟨.error (env.charsetErr.getD .ociFail), stmt1, vars, refs1, 2⟩
      else
        let c2 := if ¬ vi.charsetImplicit then 2 else 1
        if vi.typeSizeInBytes = 0 ∧ ¬ vi.isDynamic ∧ env.maxSizeErr.isSome then
          ⟨.error (env.maxSizeErr.getD .ociFail), stmt1, vars, refs1, c2 + 1⟩
        else
          let c3 := if vi.typeSizeInBytes = 0 ∧ ¬ vi.isDynamic then c2 + 1 else c2
          if vi.hasObjectIndicator ∧ env.bindObjErr.isSome then
            ⟨.error (env.bindObjErr.getD .ociFail), stmt1, vars, refs1, c3 + 1⟩
          else
            let c4 := if vi.hasObjectIndicator then c3 + 1 else c3
            if dynamicBind then
              let vars2 := if stmt1.isReturning
                then updVar vars varId { vi with actualArraySize := 0 } else vars
              match env.bindDynErr with
              | some e => ⟨.error e, stmt1, vars2, refs1, c4 + 1⟩
              | none => ⟨.ok (), stmt1, vars2, refs1, c4 + 1⟩
            else ⟨.ok (), stmt1, vars, refs1, c4⟩

/-- Embedding of `dpiStmt__bind` (dpiStmt.c lines 61-200): reject the
all-zero locator, scan the registry, release a previously bound different
variable or append a fresh entry (growing the backing array in increments
of 8), then perform the actual protocol bind. -/
def dpiStmt__bind (stmt : DpiStmt) (vars : VarMap) (refs : Refs) (varId : Nat)
    (addReference : Bool) (pos : Nat) (name : Option (List Char)) (nameLength : Nat)
    (env : BindEnv) : BindOut :=
  if pos = 0 ∧ nameLength = 0 then
    ⟨.error .notSupported, stmt, vars, refs, 0⟩
  else
    match stmt.bindVars.findIdx? (fun e => bindVarMatches e pos nameLength (name.getD [])) with
    | some i =>
      let e := stmt.bindVars.getD i default
      if e.var = some varId then ⟨.ok (), stmt, vars, refs, 0⟩
      else
        match e.var with
        | some old =>
          let refs1 := adjVarRef refs old (-1)
          let stmt1 := { stmt with bindVars := stmt.bindVars.set i { e with var := none } }
          dpiStmt__bindPerform stmt1 vars refs1 varId addReference i env
        | none => dpiStmt__bindPerform stmt vars refs varId addReference i env
    | none =>
      if stmt.bindVars.length = stmt.allocatedBindVars ∧ ¬ env.allocOk then
        ⟨.error .noMemory, stmt, vars, refs, 0⟩
      else
        let stmt0 := if stmt.bindVars.length = stmt.allocatedBindVars
          then { stmt with allocatedBindVars := stmt.allocatedBindVars + 8 } else stmt
        if name.isSome ∧ ¬ env.nameAllocOk then
          ⟨.error .noMemory, stmt0, vars, refs, 0⟩
        else
          let newEntry : BindVarEntry :=
            { pos := pos
              name := name.map (fun nm => nm.take nameLength)
              nameLength := if name.isSome then nameLength else 0
              var := none }
          let stmt1 := { stmt0 with bindVars := stmt0.bindVars ++ [newEntry] }
          dpiStmt__bindPerform stmt1 vars refs varId addReference stmt.bindVars.length env

/-- Environment for `dpiStmt__init`: the statement-type and is-returning
attributes read from the protocol handle (`none` models a failed read). -/
structure InitEnv where
  stmtTypeAttr : Option Nat := none
  isReturningAttr : Option Bool := some false
deriving Repr, Inhabited

/-- Embedding of `dpiStmt__init`: read the statement type; queries are marked
as having rows to fetch, all other statements read the returning flag. -/
def dpiStmt__init (stmt : DpiStmt) (env : InitEnv) : Except DpiErr DpiStmt :=
  match env.stmtTypeAttr with
  | none => .error .ociFail
  | some t =>
    let s := { stmt with statementType := t }
    if t = DPI_STMT_TYPE_SELECT then .ok { s with hasRowsToFetch := true }
    else
      match env.isReturningAttr with
      | none => .error .ociFail
      | some r => .ok { s with isReturning := r }

/-- Environment for `dpiStmt__checkOpen`: outcome of the generic handle
validation (`dpiGen__startPublicFn`) and, for never-initialized statements,
of the deferred `dpiStmt__init`. -/
structure CheckOpenEnv where
  startFnOk : Bool := true
  initEnv : InitEnv := {}
deriving Repr, Inhabited

/-- Embedding of `dpiStmt__checkOpen` (dpiStmt.c lines 207-219): validate the
handle, report `stmtClosed` when the protocol handle is gone, report
`notConnected` when the connection is dead, and lazily initialize the
statement type. -/
def dpiStmt__checkOpen (stmt : DpiStmt) (env : CheckOpenEnv) : Except DpiErr DpiStmt :=
  if ¬ env.startFnOk then .error .invalidHandle
  else if ¬ stmt.handle then .error .stmtClosed
  else if ¬ stmt.connHandle ∨ stmt.connClosing then .error .notConnected
  else if stmt.statementType = 0 then dpiStmt__init stmt env.initEnv
  else .ok stmt

/-- Embedding of `dpiStmt_bindByPos`: public wrapper that validates the
statement and the variable handle, then binds by position with a retained
reference. -/
def dpiStmt_bindByPos (stmt : DpiStmt) (vars : VarMap) (refs : Refs)
    (pos varId : Nat) (cenv : CheckOpenEnv) (varHandleOk : Bool) (env : BindEnv) : BindOut :=
  match dpiStmt__checkOpen stmt cenv with
  | .error e => ⟨.error e, stmt, vars, refs, 0⟩
  | .ok s1 =>
    if ¬ varHandleOk then ⟨.error .invalidHandle, s1, vars, refs, 0⟩
    else dpiStmt__bind s1 vars refs varId true pos none 0 env

/-- Embedding of `dpiStmt_bindByName`: public wrapper that validates the
statement and the variable handle, then binds by name with a retained
reference. -/
def dpiStmt_bindByName (stmt : DpiStmt) (vars : VarMap) (refs : Refs)
    (name : List Char) (nameLength varId : Nat) (cenv : CheckOpenEnv)
    (varHandleOk : Bool) (env : BindEnv) : BindOut :=
  match dpiStmt__checkOpen stmt cenv with
  | .error e => ⟨.error e, stmt, vars, refs, 0⟩
  | .ok s1 =>
    if ¬ varHandleOk then ⟨.error .invalidHandle, s1, vars, refs, 0⟩
    else dpiStmt__bind s1 vars refs varId true 0 (some name) nameLength env

/-- Embedding of `dpiStmt_getBindCount`: after the open check, the count is
the `DPI_OCI_ATTR_BIND_COUNT` attribute read from the protocol handle
(supplied by the environment; `none` models a failed read). -/
def dpiStmt_getBindCount (stmt : DpiStmt) (cenv : CheckOpenEnv)
    (bindCountAttr : Option Nat) : Except DpiErr Nat :=
  match dpiStmt__checkOpen stmt cenv with
  | .error e => .error e
  | .ok _ =>
    match bindCountAttr with
    | none => .error .ociFail
    | some n => .ok n

/-- Embedding of `dpiStmt__clearBatchErrors`: drop the collected batch error
records and reset their count. -/
def dpiStmt__clearBatchErrors (stmt : DpiStmt) : DpiStmt :=
  { stmt with batchErrors := [], numBatchErrors := 0 }

/-- Release one reference on every resource id present in the list. -/
def releaseAll (l : List (Option Nat)) (refs : Refs) : Refs :=
  l.foldl (fun r v? => match v? with | none => r | some v => adjVarRef r v (-1)) refs

/-- Embedding of `dpiStmt__clearBindVars`: release the reference held on every
bound variable, free the copied names and the backing array. -/
def dpiStmt__clearBindVars (stmt : DpiStmt) (refs : Refs) : DpiStmt × Refs :=
  ({ stmt with bindVars := [], allocatedBindVars := 0 },
    releaseAll (stmt.bindVars.map (fun e => e.var)) refs)

/-- Embedding of `dpiStmt__clearQueryVars`: release the references held on the
defined query variables and on the object-type metadata of each column, and
free the descriptor array. -/
def dpiStmt__clearQueryVars (stmt : DpiStmt) (refs : Refs) : DpiStmt × Refs :=
  let refs1 := releaseAll stmt.queryVars refs
  let refs2 := releaseAll stmt.queryObjTypes refs1
  ({ stmt with
      queryVars := [], queryObjTypes := [], numQueryVars := 0,
      queryInfoPresent := false }, refs2)

/-- Environment for `dpiStmt__createQueryVars`: the column count reported by
the protocol handle, the outcomes of the descriptor allocations and
per-column metadata reads, and the object-type handle resolved for each
column position. -/
structure CreateQVEnv where
  paramCountAttr : Option Nat := some 1
  allocOk : Bool := true
  getInfoErr : Option DpiErr := none
  objTypes : Nat → Option Nat := fun _ => none
deriving Inhabited

/-- Embedding of `dpiStmt__createQueryVars` (dpiStmt.c lines 397-437): read
the column count, discard the cached descriptors when the count changed,
allocate and populate fresh descriptor and variable arrays when needed, and
mark the fetch window as pending (`bufferRowIndex = fetchArraySize`,
`hasRowsToFetch = 1`) so the next fetch is forced to hit the server. -/
def dpiStmt__createQueryVars (stmt : DpiStmt) (refs : Refs) (env : CreateQVEnv) :
    (Except DpiErr Unit) × DpiStmt × Refs :=
  match env.paramCountAttr with
  | none => (.error .ociFail, stmt, refs)
  | some n =>
    let sr :=
      if 0 < stmt.numQueryVars ∧ stmt.numQueryVars ≠ n then dpiStmt__clearQueryVars stmt refs
      else (stmt, refs)
    let stmt1 := sr.1
    let refs1 := sr.2
    if n ≠ stmt1.numQueryVars then
      if ¬ env.allocOk then (.error .noMemory, stmt1, refs1)
      else
        match env.getInfoErr with
        | some e =>
          let cr := dpiStmt__clearQueryVars stmt1 refs1
          (.error e, cr.1, cr.2)
        | none =>
          let objs := (List.range n).map env.objTypes
          let refs2 := objs.foldl
            (fun r o => match o with | none => r | some v => adjVarRef r v 1) refs1
          let stmt2 := { stmt1 with
              numQueryVars := n, queryVars := List.replicate n none,
              queryObjTypes := objs, queryInfoPresent := true }
          (.ok (), { stmt2 with
              bufferRowIndex := stmt2.fetchArraySize,
              hasRowsToFetch := true }, refs2)
    else
      (.ok (), { stmt1 with
          bufferRowIndex := stmt1.fetchArraySize,
          hasRowsToFetch := true }, refs1)

/-- Environment for `dpiStmt__preFetch`: the deferred describe environment,
the id of the variable the external subsystem allocates for a column that
lacks one (`none` models an allocation failure), and the outcomes of the
define call and of the extended pre-fetch hook. -/
structure PreFetchEnv where
  createQV : CreateQVEnv := {}
  allocVar : Nat → Option Nat := fun _ => some 0
  defineErr : Option DpiErr := none
  extPreFetchErr : Option DpiErr := none
deriving Inhabited

/-- Per-column loop of `dpiStmt__preFetch`: allocate and define a variable
where one is missing (the statement then holds one reference on it), check
that every variable's capacity covers the fetch array size, and run the
extended pre-fetch hook where required. -/
def preFetchLoop (fetchArraySize : Nat) (vars : VarMap) (env : PreFetchEnv) :
    List (Option Nat) → Nat → Refs → (Except DpiErr Unit) × List (Option Nat) × Refs
  | [], _, refs => (.ok (), [], refs)
  | v? :: rest, i, refs =>
    let settle : (Except DpiErr Unit) × Nat × Refs :=
      match v? with
      | some v => (.ok (), v, refs)
      | none =>
        match env.allocVar i with
        | none => (.error .noMemory, 0, refs)
        | some nv =>
          match env.defineErr with
          | some e => (.error e, nv, refs)
          | none => (.ok (), nv, adjVarRef refs nv 1)
    match settle with
    | (.error e, _, refs1) => (.error e, v? :: rest, refs1)
    | (.ok _, v, refs1) =>
      if fetchArraySize > (vars v).maxArraySize then
        (.error .arraySizeTooSmall, some v :: rest, refs1)
      else if (vars v).requiresPreFetch ∧ env.extPreFetchErr.isSome then
        (.error (env.extPreFetchErr.getD .varError), some v :: rest, refs1)
      else
        let t := preFetchLoop fetchArraySize vars env rest (i + 1) refs1
        (t.1, some v :: t.2.1, t.2.2)

/-- Result of the pre-fetch step. -/
structure PreFetchOut where
  res : Except DpiErr Unit
  stmt : DpiStmt
  refs : Refs

/-- Embedding of `dpiStmt__preFetch` (dpiStmt.c lines 895-926): run the
deferred describe when no query metadata exists yet, then settle and check
every query variable. -/
def dpiStmt__preFetch (stmt : DpiStmt) (vars : VarMap) (refs : Refs)
    (env : PreFetchEnv) : PreFetchOut :=
  let step1 :=
    if ¬ stmt.queryInfoPresent then dpiStmt__createQueryVars stmt refs env.createQV
    else (.ok (), stmt, refs)
  match step1 with
  | (.error e, s1, r1) => ⟨.error e, s1, r1⟩
  | (.ok _, s1, r1) =>
    match preFetchLoop s1.fetchArraySize vars env s1.queryVars 0 r1 with
    | (.error e, l, r2) => ⟨.error e, { s1 with queryVars := l }, r2⟩
    | (.ok _, l, r2) => ⟨.ok (), { s1 with queryVars := l }, r2⟩

/-- Outcome of one protocol-level fetch call (`dpiOci__stmtFetch2` followed by
the rows-fetched attribute read): whether the call itself failed, the
end-of-data indication the protocol layer records on the statement, and the
`DPI_OCI_ATTR_ROWS_FETCHED` value (`none` models a failed read). -/
structure OciFetchEnv where
  callErr : Option DpiErr := none
  hasMore : Bool := true
  rowsAttr : Option Nat := some 0
deriving Repr, Inhabited

/-- Result of the internal fetch: status, updated state and the number of
protocol-level fetch calls issued. -/
structure FetchOut where
  res : Except DpiErr Unit
  stmt : DpiStmt
  refs : Refs
  fetchCalls : Nat

/-- Embedding of `dpiStmt__fetch` (dpiStmt.c lines 590-616): pre-fetch
activities, one protocol fetch of `fetchArraySize` rows, read back the
buffered row count, reset the window (`bufferMinRow = rowCount + 1`,
`bufferRowIndex = 0`) and run the post-fetch transformations. -/
def dpiStmt__fetch (stmt : DpiStmt) (vars : VarMap) (refs : Refs)
    (pre : PreFetchEnv) (oci : OciFetchEnv) (postFetchRes : Except DpiErr Unit) : FetchOut :=
  match dpiStmt__preFetch stmt vars refs pre with
  | ⟨.error e, s1, r1⟩ => ⟨.error e, s1, r1, 0⟩
  | ⟨.ok _, s1, r1⟩ =>
    match oci.callErr with
    | some e => ⟨.error e, s1, r1, 1⟩
    | none =>
      let s2 := { s1 with hasRowsToFetch := oci.hasMore }
      match oci.rowsAttr with
      | none => ⟨.error .ociFail, s2, r1, 1⟩
      | some n =>
        let s3 := { s2 with
            bufferRowCount := n,
            bufferMinRow := s2.rowCount + 1, bufferRowIndex := 0 }
        match postFetchRes with
        | .error e => ⟨.error e, s3, r1, 1⟩
        | .ok _ => ⟨.ok (), s3, r1, 1⟩

/-- Environment for one public fetch call. -/
structure FetchCallEnv where
  checkOpen : CheckOpenEnv := {}
  pre : PreFetchEnv := {}
  oci : OciFetchEnv := {}
  postFetchRes : Except DpiErr Unit := .ok ()
deriving Inhabited

/-- Result of `dpiStmt_fetch`: on success, `some idx` reports a found row at
buffer index `idx` and `none` reports end of result set (`found = 0`). -/
structure FetchPubOut where
  res : Except DpiErr (Option Nat)
  stmt : DpiStmt
  refs : Refs
  fetchCalls : Nat

/-- Embedding of `dpiStmt_fetch` (dpiStmt.c lines 1236-1257): refill the
window from the server only when it is exhausted and more rows are known to
exist; report end of result set as success with `found = 0`. -/
def dpiStmt_fetch (stmt : DpiStmt) (vars : VarMap) (refs : Refs)
    (env : FetchCallEnv) : FetchPubOut :=
  match dpiStmt__checkOpen stmt env.checkOpen with
  | .error e => ⟨.error e, stmt, refs, 0⟩
  | .ok s0 =>
    if s0.bufferRowIndex ≥ s0.bufferRowCount then
      let f : FetchOut :=
        if s0.hasRowsToFetch then dpiStmt__fetch s0 vars refs env.pre env.oci env.postFetchRes
        else ⟨.ok (), s0, refs, 0⟩
      match f.res with
      | .error e => ⟨.error e, f.stmt, f.refs, f.fetchCalls⟩
      | .ok _ =>
        if f.stmt.bufferRowIndex ≥ f.stmt.bufferRowCount then
          ⟨.ok none, f.stmt, f.refs, f.fetchCalls⟩
        else
          ⟨.ok (some f.stmt.bufferRowIndex),
            { f.stmt with
              bufferRowIndex := f.stmt.bufferRowIndex + 1,
              rowCount := f.stmt.rowCount + 1 }, f.refs, f.fetchCalls⟩
    else
      ⟨.ok (some s0.bufferRowIndex),
        { s0 with bufferRowIndex := s0.bufferRowIndex + 1, rowCount := s0.rowCount + 1 },
        refs, 0⟩

/-- Result of `dpiStmt_fetchRows`: on success the triple is
`(bufferRowIndex, numRowsFetched, moreRows)`. -/
structure FetchRowsOut where
  res : Except DpiErr (Nat × Nat × Bool)
  stmt : DpiStmt
  refs : Refs
  fetchCalls : Nat

/-- Consuming tail of `dpiStmt_fetchRows`, reached with a non-exhausted
window: hand out the available rows capped at `maxRows`, forcing the
more-rows indication when the cap truncated. -/
def fetchRowsTail (s : DpiStmt) (refs : Refs) (maxRows : Nat) (calls : Nat) : FetchRowsOut :=
  let idx := s.bufferRowIndex
  let avail := s.bufferRowCount - s.bufferRowIndex
  let nm := if avail > maxRows then (maxRows, true) else (avail, s.hasRowsToFetch)
  ⟨.ok (idx, nm.1, nm.2),
    { s with bufferRowIndex := s.bufferRowIndex + nm.1, rowCount := s.rowCount + nm.1 },
    refs, calls⟩

/-- Embedding of `dpiStmt_fetchRows` (dpiStmt.c lines 1266-1296): refill the
window from the server only when it is exhausted and more rows are known to
exist; report end of result set as success with zero rows. -/
def dpiStmt_fetchRows (stmt : DpiStmt) (vars : VarMap) (refs : Refs) (maxRows : Nat)
    (env : FetchCallEnv) : FetchRowsOut :=
  match dpiStmt__checkOpen stmt env.checkOpen with
  | .error e => ⟨.error e, stmt, refs, 0⟩
  | .ok s0 =>
    if s0.bufferRowIndex ≥ s0.bufferRowCount then
      let f : FetchOut :=
        if s0.hasRowsToFetch then dpiStmt__fetch s0 vars refs env.pre env.oci env.postFetchRes
        else ⟨.ok (), s0, refs, 0⟩
      match f.res with
      | .error e => ⟨.error e, f.stmt, f.refs, f.fetchCalls⟩
      | .ok _ =>
        if f.stmt.bufferRowIndex ≥ f.stmt.bufferRowCount then
          ⟨.ok (0, 0, false), f.stmt, f.refs, f.fetchCalls⟩
        else fetchRowsTail f.stmt f.refs maxRows f.fetchCalls
    else fetchRowsTail s0 refs maxRows 0

/-- Fetch modes of `dpiStmt_scroll`; `invalid` stands for any value outside
the enumeration, handled by the `default` branch of the source. -/
inductive DpiFetchMode where
  | next
  | prior
  | first
  | last
  | absolute
  | relative
  | invalid
deriving DecidableEq, Repr

/-- Unsigned 64-bit value of an integer expression (C `uint64_t` arithmetic). -/
def u64ofInt (x : Int) : Nat := (x % (2 : Int) ^ 64).toNat

/-- Unsigned 32-bit value of an integer expression (C `uint32_t` arithmetic
and truncating casts). -/
def u32ofInt (x : Int) : Nat := (x % (2 : Int) ^ 32).toNat

/-- Desired absolute row number computed by the mode switch of
`dpiStmt_scroll` (dpiStmt.c lines 1657-1679).  For mode `last` the source
leaves the value unset and guards on the mode before ever reading it; the
placeholder 0 here is likewise never read. -/
def scrollDesiredRow (stmt : DpiStmt) (mode : DpiFetchMode)
    (offset rowCountOffset : Int) : Nat :=
  match mode with
  | .next => u64ofInt ((stmt.rowCount : Int) + rowCountOffset + 1)
  | .prior => u64ofInt ((stmt.rowCount : Int) + rowCountOffset - 1)
  | .first => 1
  | .last => 0
  | .absolute => u64ofInt offset
  | .relative => u64ofInt ((stmt.rowCount : Int) + rowCountOffset + offset)
  | .invalid => 0

/-- Environment for one `dpiStmt_scroll` call: open-check outcome, pre-fetch
outcomes, the positioned protocol fetch outcome, the rows-fetched and
current-position attributes read back, and the post-fetch outcome. -/
structure ScrollEnv where
  checkOpen : CheckOpenEnv := {}
  pre : PreFetchEnv := {}
  callErr : Option DpiErr := none
  hasMore : Bool := true
  rowsAttr : Option Nat := some 0
  curPosAttr : Option Nat := some 0
  postFetchRes : Except DpiErr Unit := .ok ()
deriving Inhabited

/-- Result of `dpiStmt_scroll`. -/
structure ScrollOut where
  res : Except DpiErr Unit
  stmt : DpiStmt
  refs : Refs
  fetchCalls : Nat

/-- Embedding of `dpiStmt_scroll` (dpiStmt.c lines 1645-1731): reposition
inside the buffered window without a protocol call when possible (never for
mode `last`), otherwise issue a positioned protocol fetch, treat zero rows
fetched as an empty result set for `first`/`last` and as
`ScrollOutOfResultSet` for every other mode, and otherwise derive the new
window base from the server's current position. -/
def dpiStmt_scroll (stmt : DpiStmt) (vars : VarMap) (refs : Refs)
    (mode : DpiFetchMode) (offset rowCountOffset : Int) (env : ScrollEnv) : ScrollOut :=
  match dpiStmt__checkOpen stmt env.checkOpen with
  | .error e => ⟨.error e, stmt, refs, 0⟩
  | .ok s0 =>
    if mode = .invalid then ⟨.error .notSupported, s0, refs, 0⟩
    else
      let desiredRow := scrollDesiredRow s0 mode offset rowCountOffset
      if mode ≠ .last ∧ desiredRow ≥ s0.bufferMinRow ∧
          desiredRow < u64ofInt ((s0.bufferMinRow : Int) + (s0.bufferRowCount : Int)) then
        ⟨.ok (), { s0 with
            bufferRowIndex := u32ofInt ((desiredRow : Int) - (s0.bufferMinRow : Int)),
            rowCount := u64ofInt ((desiredRow : Int) - 1) }, refs, 0⟩
      else
        match dpiStmt__preFetch s0 vars refs env.pre with
        | ⟨.error e, s1, r1⟩ => ⟨.error e, s1, r1, 0⟩
        | ⟨.ok _, s1, r1⟩ =>
          match env.callErr with
          | some e => ⟨.error e, s1, r1, 1⟩
          | none =>
            let s2 := { s1 with hasRowsToFetch := env.hasMore }
            match env.rowsAttr with
            | none => ⟨.error .ociFail, s2, r1, 1⟩
            | some n =>
              let s3 := { s2 with bufferRowCount := n }
              if n = 0 then
                if mode ≠ .first ∧ mode ≠ .last then
                  ⟨.error .scrollOutOfRS, s3, r1, 1⟩
                else
                  ⟨.ok (), { s3 with
                      hasRowsToFetch := false, rowCount := 0,
                      bufferRowIndex := 0, bufferMinRow := 0 }, r1, 1⟩
              else
                match env.curPosAttr with
                | none => ⟨.error .ociFail, s3, r1, 1⟩
                | some p =>
                  let rc := u32ofInt ((p : Int) - (n : Int))
                  let s4 := { s3 with
                      rowCount := rc, bufferMinRow := rc + 1,
                      bufferRowIndex := 0 }
                  match env.postFetchRes with
                  | .error e => ⟨.error e, s4, r1, 1⟩
                  | .ok _ => ⟨.ok (), s4, r1, 1⟩

/-- Outcome of the collection steps for one batch-error index in
`dpiStmt__getBatchErrors`: acquiring the per-iteration error handle
(`OCIParamGet`), reading the DML row offset attribute, or rendering the
error message can each fail, otherwise the row offset is produced. -/
inductive BatchIterOutcome where
  | paramGetFail
  | rowOffsetFail
  | msgFail
  | ok (rowOffset : Int)
deriving DecidableEq, Repr, Inhabited

/-- Environment for `dpiStmt__getBatchErrors`: the reported error count, the
outcomes of the record allocation and of the two error-handle allocations,
and the per-index collection outcomes. -/
structure BatchEnv where
  numErrorsAttr : Option Nat := some 0
  allocOk : Bool := true
  allocHandle1Ok : Bool := true
  allocHandle2Ok : Bool := true
  iters : List BatchIterOutcome := []
deriving Inhabited

/-- Per-index loop of `dpiStmt__getBatchErrors`: fill the record slots one by
one, stopping at the first failing collection step with its error. -/
def batchErrorsLoop (iters : List BatchIterOutcome) :
    Nat → Nat → List BatchErrorRec → (Except DpiErr Unit) × List BatchErrorRec
  | 0, _, recs => (.ok (), recs)
  | k + 1, i, recs =>
    match iters.getD i (.ok 0) with
    | .paramGetFail => (.error (.invalidIndex i), recs)
    | .rowOffsetFail => (.error .cannotGetRowOffset, recs)
    | .msgFail => (.error .ociFail, recs)
    | .ok off => batchErrorsLoop iters k (i + 1) (recs.set i ⟨off⟩)

/-- Embedding of `dpiStmt__getBatchErrors` (dpiStmt.c lines 634-715): read the
error count, allocate the record array and the two scratch error handles,
collect every record, and on any failure discard all partially collected
records (`dpiStmt__clearBatchErrors`) and surface the collection failure. -/
def dpiStmt__getBatchErrors (stmt : DpiStmt) (env : BatchEnv) :
    (Except DpiErr Unit) × DpiStmt :=
  match env.numErrorsAttr with
  | none => (.error .ociFail, stmt)
  | some n =>
    let stmt1 := { stmt with numBatchErrors := n }
    if ¬ env.allocOk then (.error .noMemory, { stmt1 with numBatchErrors := 0 })
    else
      let stmt2 := { stmt1 with batchErrors := List.replicate n default }
      if ¬ env.allocHandle1Ok then (.error .ociFail, dpiStmt__clearBatchErrors stmt2)
      else if ¬ env.allocHandle2Ok then (.error .ociFail, dpiStmt__clearBatchErrors stmt2)
      else
        match batchErrorsLoop env.iters n 0 stmt2.batchErrors with
        | (.error e, _) => (.error e, dpiStmt__clearBatchErrors stmt2)
        | (.ok _, recs) => (.ok (), { stmt2 with batchErrors := recs })

/-- Embedding of `dpiStmt_getBatchErrorCount` (dpiStmt.c lines 1304-1313):
after the open check, report the stored batch error count. -/
def dpiStmt_getBatchErrorCount (stmt : DpiStmt) (cenv : CheckOpenEnv) : Except DpiErr Nat :=
  match dpiStmt__checkOpen stmt cenv with
  | .error e => .error e
  | .ok s => .ok s.numBatchErrors

/-- Result of a close operation. -/
structure CloseOut where
  res : Except DpiErr Unit
  stmt : DpiStmt
  refs : Refs

/-- Embedding of `dpiStmt__close` (dpiStmt.c lines 295-316): clear batch
errors, bind registry and query metadata, release the protocol handle
(freeing it directly for owned handles, otherwise through the cache-aware
release whose failure is propagated only on explicit close), decrement the
connection's open-child count and release the connection reference. -/
def dpiStmt__close (stmt : DpiStmt) (refs : Refs) (propagateErrors : Bool)
    (releaseErr : Option DpiErr) : CloseOut :=
  let s1 := dpiStmt__clearBatchErrors stmt
  let br := dpiStmt__clearBindVars s1 refs
  let qr := dpiStmt__clearQueryVars br.1 br.2
  if qr.1.handle ∧ ¬ qr.1.isOwned ∧ propagateErrors ∧ releaseErr.isSome then
    ⟨.error (releaseErr.getD .ociFail), qr.1, qr.2⟩
  else
    let hr : DpiStmt × Refs :=
      if qr.1.handle then
        ({ qr.1 with handle := false },
          { qr.2 with connChildren := qr.2.connChildren - 1 })
      else (qr.1, qr.2)
    let cr : DpiStmt × Refs :=
      if hr.1.connPresent then
        ({ hr.1 with connPresent := false }, { hr.2 with conn := hr.2.conn - 1 })
      else hr
    ⟨.ok (), cr.1, cr.2⟩

/-- Environment for `dpiStmt_close`. -/
structure CloseEnv where
  checkOpen : CheckOpenEnv := {}
  stmtReleaseErr : Option DpiErr := none
deriving Inhabited

/-- Embedding of `dpiStmt_close` (dpiStmt.c lines 1095-1103): the open/closed
guard runs first, so the close sequence is entered only on an open
statement; errors from the cache-aware release are propagated. -/
def dpiStmt_close (stmt : DpiStmt) (refs : Refs) (env : CloseEnv) : CloseOut :=
  match dpiStmt__checkOpen stmt env.checkOpen with
  | .error e => ⟨.error e, stmt, refs⟩
  | .ok s0 => dpiStmt__close s0 refs true env.stmtReleaseErr

/-- Bind-transfer loop at the top of `dpiStmt__execute` (dpiStmt.c lines
507-520): for every bound variable, refuse a REF-cursor bind of the
statement to itself, then copy every element into its wire-ready form
through the external value subsystem.  Entries without a variable are
skipped (the source assumes every registry entry carries one by execution
time). -/
def execTransferBindsList : List BindVarEntry → VarMap → Option DpiErr
  | [], _ => none
  | e :: rest, vars =>
    match e.var with
    | none => execTransferBindsList rest vars
    | some v =>
      if (vars v).bindsSelf then some .notSupported
      else if ¬ (vars v).setValueOk then some .varError
      else execTransferBindsList rest vars

/-- Output-transfer loop of `dpiStmt__execute` (dpiStmt.c lines 555-567):
copy every bound variable's wire form back to its external form, for
returning statements and PL/SQL. -/
def execFlushOutputList : List BindVarEntry → VarMap → Option DpiErr
  | [], _ => none
  | e :: rest, vars =>
    match e.var with
    | none => execFlushOutputList rest vars
    | some v =>
      if ¬ (vars v).getValueOk then some .varError
      else execFlushOutputList rest vars

/-- Environment for one top-level `dpiStmt__execute` call.  `execResult1` is
the outcome of the first protocol execute (`none` = success, `some code` =
failure with that server error code) and `execResult2` the outcome of the
protocol execute issued by the recovery path, when it runs.  The remaining
fields give the outcomes of the other protocol steps of execution and of
the recovery sequence. -/
structure ExecEnv where
  prefetchSetErr : Option DpiErr := none
  execResult1 : Option Nat := none
  execResult2 : Option Nat := none
  createQV : CreateQVEnv := {}
  prefetchResetErr : Option DpiErr := none
  getSqlOk : Bool := true
  prepareOk : Bool := true
  releaseOk : Bool := true
  rebindEnvs : List BindEnv := []
deriving Inhabited

/-- Result of an execute operation: status, updated state, number of
protocol-level execute calls issued and number of times the re-execution
recovery path was entered. -/
structure ExecOut where
  res : Except DpiErr Unit
  stmt : DpiStmt
  vars : VarMap
  refs : Refs
  execCalls : Nat
  recoveries : Nat

/-- Body of `dpiStmt__execute` (dpiStmt.c lines 498-583), parameterized by
the recovery continuation: `some f` corresponds to calling with
`reExecute != 0`, and `f` receives the state at the failure point together
with the failing server code.  The iteration count and execution mode are
consumed only by the protocol layer (the scrollable statements OR a
read-only-scrollable bit into the mode) and are not observable in this
model, so they are omitted. -/
def dpiStmt__executeCore
    (recover : Option (DpiStmt → VarMap → Refs → Nat → ExecOut))
    (stmt : DpiStmt) (vars : VarMap) (refs : Refs)
    (thisExec : Option Nat) (env : ExecEnv) : ExecOut :=
  match execTransferBindsList stmt.bindVars vars with
  | some e => ⟨.error e, stmt, vars, refs, 0, 0⟩
  | none =>
    if stmt.statementType = DPI_STMT_TYPE_SELECT ∧ env.prefetchSetErr.isSome then
      ⟨.error (env.prefetchSetErr.getD .ociFail), stmt, vars, refs, 0, 0⟩
    else
      let s1 := dpiStmt__clearBatchErrors stmt
      match thisExec with
      | some code =>
        -- the parse error offset attribute is read for diagnostics (value ignored);
        -- recovery runs only for a fresh top-level call observing code 1007, and
        -- all other failures except code 1 mark the statement for cache eviction
        match recover with
        | some f =>
          if code = 1007 then
            let r := f s1 vars refs code
            { r with execCalls := r.execCalls + 1, recoveries := r.recoveries + 1 }
          else
            ⟨.error (.ociError code),
              { s1 with deleteFromCache := if code ≠ 1 then true else s1.deleteFromCache },
              vars, refs, 1, 0⟩
        | none =>
          ⟨.error (.ociError code),
            { s1 with deleteFromCache := if code ≠ 1 then true else s1.deleteFromCache },
            vars, refs, 1, 0⟩
      | none =>
        let isPlsql := s1.statementType = DPI_STMT_TYPE_BEGIN ∨
            s1.statementType = DPI_STMT_TYPE_DECLARE ∨
            s1.statementType = DPI_STMT_TYPE_CALL
        let flushed : Option DpiErr :=
          if s1.isReturning ∨ isPlsql then execFlushOutputList s1.bindVars vars else none
        match flushed with
        | some e => ⟨.error e, s1, vars, refs, 1, 0⟩
        | none =>
          if s1.statementType = DPI_STMT_TYPE_SELECT then
            match dpiStmt__createQueryVars s1 refs env.createQV with
            | (.error e, s2, r2) => ⟨.error e, s2, vars, r2, 1, 0⟩
            | (.ok _, s2, r2) =>
              match env.prefetchResetErr with
              | some e => ⟨.error e, s2, vars, r2, 1, 0⟩
              | none => ⟨.ok (), s2, vars, r2, 1, 0⟩
          else ⟨.ok (), s1, vars, refs, 1, 0⟩

/-- Rebind loop of `dpiStmt__reExecute` (dpiStmt.c lines 987-998): every
previously bound entry transfers its variable reference to the new handle
without duplicating it; a failing rebind drops the reference and aborts. -/
def reExecuteRebindLoop (envs : List BindEnv) :
    Nat → Nat → DpiStmt → VarMap → Refs → BindOut
  | 0, _, stmt, vars, refs => ⟨.ok (), stmt, vars, refs, 0⟩
  | k + 1, i, stmt, vars, refs =>
    let e := stmt.bindVars.getD i default
    match e.var with
    | none => reExecuteRebindLoop envs k (i + 1) stmt vars refs
    | some v =>
      let stmt1 := { stmt with bindVars := stmt.bindVars.set i { e with var := none } }
      let b := dpiStmt__bind stmt1 vars refs v false e.pos e.name e.nameLength (envs.getD i {})
      match b.res with
      | .error err => ⟨.error err, b.stmt, b.vars, adjVarRef b.refs v (-1), b.ociCalls⟩
      | .ok _ =>
        let r := reExecuteRebindLoop envs k (i + 1) b.stmt b.vars b.refs
        { r with ociCalls := r.ociCalls + b.ociCalls }

/-- Embedding of `dpiStmt__reExecute` (dpiStmt.c lines 949-1002): retrieve
the SQL text, prepare a fresh handle (re-running init on a handle for the
same SQL text, hence the same statement kind), mark the stale handle
evicted from the statement cache and release it — a failure of any of these
steps lets the original error surface — then clear batch errors and query
metadata, rebind every entry, and re-invoke execution with recovery
disabled. -/
def dpiStmt__reExecute (stmt : DpiStmt) (vars : VarMap) (refs : Refs)
    (origCode : Nat) (env : ExecEnv) : ExecOut :=
  if ¬ env.getSqlOk then ⟨.error (.ociError origCode), stmt, vars, refs, 0, 0⟩
  else
    let sp := if env.prepareOk ∧ stmt.statementType = DPI_STMT_TYPE_SELECT
      then { stmt with hasRowsToFetch := true } else stmt
    let sp1 := { sp with deleteFromCache := true }
    if ¬ env.releaseOk ∨ ¬ env.prepareOk then
      ⟨.error (.ociError origCode), sp1, vars, refs, 0, 0⟩
    else
      let sb := dpiStmt__clearBatchErrors sp1
      let qr := dpiStmt__clearQueryVars sb refs
      let rb := reExecuteRebindLoop env.rebindEnvs qr.1.bindVars.length 0 qr.1 vars qr.2
      match rb.res with
      | .error e => ⟨.error e, rb.stmt, rb.vars, rb.refs, 0, 0⟩
      | .ok _ => dpiStmt__executeCore none rb.stmt rb.vars rb.refs env.execResult2 env

/-- Embedding of `dpiStmt__execute` with its `reExecute` flag: a fresh
top-level call passes a recovery continuation, the recovery path itself
re-invokes execution without one. -/
def dpiStmt__execute (stmt : DpiStmt) (vars : VarMap) (refs : Refs)
    (reExecute : Bool) (env : ExecEnv) : ExecOut :=
  dpiStmt__executeCore
    (if reExecute then some (fun s v r c => dpiStmt__reExecute s v r c env) else none)
    stmt vars refs env.execResult1 env

/-- Embedding of `dpiStmt_execute` (dpiStmt.c lines 1172-1185): public
wrapper running the open check and invoking internal execution with
recovery permitted. -/
def dpiStmt_execute (stmt : DpiStmt) (vars : VarMap) (refs : Refs)
    (cenv : CheckOpenEnv) (env : ExecEnv) : ExecOut :=
  match dpiStmt__checkOpen stmt cenv with
  | .error e => ⟨.error e, stmt, vars, refs, 0, 0⟩
  | .ok s0 => dpiStmt__execute s0 vars refs true env

/-- Array-capacity check of `dpiStmt_executeMany`: every bound variable must
hold at least `numIters` elements. -/
def execManyCheckArraySizes : List BindVarEntry → VarMap → Nat → Option DpiErr
  | [], _, _ => none
  | e :: rest, vars, n =>
    match e.var with
    | none => execManyCheckArraySizes rest vars n
    | some v =>
      if (vars v).maxArraySize < n then some .arraySizeTooSmall
      else execManyCheckArraySizes rest vars n

/-- Embedding of `dpiStmt_executeMany` (dpiStmt.c lines 1194-1229): queries
are refused, bind capacities are checked, execution runs with recovery
disabled, and when batch-error mode was requested the batch errors are
collected afterwards. -/
def dpiStmt_executeMany (stmt : DpiStmt) (vars : VarMap) (refs : Refs)
    (numIters : Nat) (batchErrorsMode : Bool) (cenv : CheckOpenEnv) (env : ExecEnv)
    (benv : BatchEnv) : ExecOut :=
  match dpiStmt__checkOpen stmt cenv with
  | .error e => ⟨.error e, stmt, vars, refs, 0, 0⟩
  | .ok s0 =>
    if s0.statementType = DPI_STMT_TYPE_SELECT then
      ⟨.error .notSupported, s0, vars, refs, 0, 0⟩
    else
      match execManyCheckArraySizes s0.bindVars vars numIters with
      | some e => ⟨.error e, s0, vars, refs, 0, 0⟩
      | none =>
        let s1 := dpiStmt__clearBatchErrors s0
        let ex := dpiStmt__execute s1 vars refs false env
        match ex.res with
        | .error _ => ex
        | .ok _ =>
          if batchErrorsMode then
            let gb := dpiStmt__getBatchErrors ex.stmt benv
            { ex with res := gb.1, stmt := gb.2 }
          else ex

/-! Sample states and scenario runs used by the concrete claim instances. -/

/-- Sample open DML (INSERT) statement used by concrete witnesses. -/
def sampleOpenStmt : DpiStmt := { statementType := 4 }

/-- Sample closed statement (explicit close already ran: protocol handle and
connection reference both gone). -/
def sampleClosedStmt : DpiStmt := { handle := false, connPresent := false, statementType := 4 }

/-- Sample reference-count state: no variable references held, one connection
reference, one open child. -/
def sampleRefs : Refs := ⟨fun _ => 0, 1, 1⟩

/-- Sample variable attribute map: every id denotes a plain static variable. -/
def sampleVars : VarMap := fun _ => {}

/-- Environment for the C1 witness: both the top-level protocol execute and
the re-executed one fail with server code 1007. -/
def c1env : ExecEnv := { execResult1 := some 1007, execResult2 := some 1007 }

/-- Statement state with the registry entry at `idx` re-pointed to `v` — the
in-place entry update both branches of `dpiStmt__bind` perform. -/
def setEntryVar (stmt : DpiStmt) (idx : Nat) (v : Option Nat) : DpiStmt :=
  { stmt with
      bindVars := stmt.bindVars.set idx
        { stmt.bindVars.getD idx default with var := v } }

/-- First bind of the C2 scenario: bind position 1 to value resource 0 (A) on
a fresh open statement. -/
def c2bindA : BindOut := dpiStmt_bindByPos sampleOpenStmt sampleVars sampleRefs 1 0 {} true {}

/-- Second bind of the C2 scenario: bind position 1 to value resource 1 (B). -/
def c2bindB : BindOut := dpiStmt_bindByPos c2bindA.stmt c2bindA.vars c2bindA.refs 1 1 {} true {}

/-- Executed query of the C3 scenario: fetch array size 3, described
(metadata present, one column with its defined variable), window marked
pending (`bufferRowIndex = fetchArraySize`) exactly as
`dpiStmt__createQueryVars` leaves it after execution. -/
def c3queryStmt : DpiStmt :=
  { statementType := 1, fetchArraySize := 3, bufferRowIndex := 3, bufferRowCount := 0,
    hasRowsToFetch := true, queryInfoPresent := true, numQueryVars := 1,
    queryVars := [some 7], queryObjTypes := [none] }

/-- Variable map of the C3 scenario: every resource holds 3 elements. -/
def c3vars : VarMap := fun _ => { maxArraySize := 3 }

/-- Fetch environment of the C3 scenario: each protocol fetch returns a full
batch of 3 rows with more rows remaining. -/
def c3env : FetchCallEnv := { oci := { rowsAttr := some 3, hasMore := true } }

/-- First single-row fetch of the C3 scenario (triggers the batch fetch). -/
def c3fetch1 : FetchPubOut := dpiStmt_fetch c3queryStmt c3vars sampleRefs c3env

/-- Second single-row fetch of the C3 scenario. -/
def c3fetch2 : FetchPubOut := dpiStmt_fetch c3fetch1.stmt c3vars c3fetch1.refs c3env

/-- Third single-row fetch of the C3 scenario. -/
def c3fetch3 : FetchPubOut := dpiStmt_fetch c3fetch2.stmt c3vars c3fetch2.refs c3env

/-- Fourth single-row fetch of the C3 scenario (window exhausted again). -/
def c3fetch4 : FetchPubOut := dpiStmt_fetch c3fetch3.stmt c3vars c3fetch3.refs c3env

/-- Exhausted-window query state used by the C3 counterexample: the window
holds zero remaining rows and more rows are known to exist. -/
def c3exhausted : DpiStmt :=
  { statementType := 1, fetchArraySize := 3, bufferRowIndex := 0, bufferRowCount := 0,
    hasRowsToFetch := true, queryInfoPresent := true, numQueryVars := 1,
    queryVars := [some 7], queryObjTypes := [none] }

/-- Scrollable query of the C4 witness: a loaded window buffering rows 1-3. -/
def c4stmt : DpiStmt :=
  { statementType := 1, scrollable := true, fetchArraySize := 3, bufferMinRow := 1,
    bufferRowCount := 3, bufferRowIndex := 0, rowCount := 0, hasRowsToFetch := true,
    queryInfoPresent := true, numQueryVars := 1, queryVars := [some 7],
    queryObjTypes := [none] }

/-- Scroll environment of the C4 witness: the positioned fetch returns 3 rows
and the server reports current position 10. -/
def c4env : ScrollEnv := { rowsAttr := some 3, curPosAttr := some 10 }

/-- Unfetched scrollable cursor of the C5 scenario: nothing buffered yet. -/
def c5stmt : DpiStmt :=
  { statementType := 1, scrollable := true, fetchArraySize := 3, bufferMinRow := 0,
    bufferRowCount := 0, bufferRowIndex := 0, rowCount := 0, hasRowsToFetch := true,
    queryInfoPresent := true, numQueryVars := 0, queryVars := [], queryObjTypes := [] }

/-- Scroll environment of the C5 scenario: the positioned fetch reads back
zero rows fetched. -/
def c5env : ScrollEnv := { rowsAttr := some 0 }

/-! Helper lemmas shared by the claim proofs. -/

/-- A 32-bit unsigned subtraction without underflow computes the plain
difference. -/
theorem u32ofInt_sub (p n : Nat) (h1 : n ≤ p) (h2 : p < 2 ^ 32) :
    u32ofInt ((p : Int) - (n : Int)) = p - n := by
  unfold u32ofInt
  omega

/-- The open check succeeds, without touching the state, on an open statement
whose connection is live and whose type is already initialized. -/
theorem checkOpen_open (stmt : DpiStmt) (cenv : CheckOpenEnv)
    (hfn : cenv.startFnOk = true) (hopen : stmt.handle = true)
    (hconn : stmt.connHandle = true) (hcl : stmt.connClosing = false)
    (hty : stmt.statementType ≠ 0) :
    dpiStmt__checkOpen stmt cenv = .ok stmt := by
  simp [dpiStmt__checkOpen, hfn, hopen, hconn, hcl, hty]

/-- Incrementing a variable's reference count changes that variable's counter
by the given delta. -/
theorem adjVarRef_var_self (r : Refs) (k : Nat) (d : Int) :
    (adjVarRef r k d).var k = r.var k + d := by
  simp [adjVarRef]

/-- Incrementing a variable's reference count leaves every other variable's
counter unchanged. -/
theorem adjVarRef_var_other (r : Refs) (k : Nat) (d : Int) (x : Nat) (h : x ≠ k) :
    (adjVarRef r k d).var x = r.var x := by
  simp [adjVarRef, h]

/-- With the all-success protocol environment, the bind tail succeeds, points
the registry entry at `idx` to the new variable in place, and retains one
reference exactly when `addRef` is set. -/
theorem bindPerform_default (stmt : DpiStmt) (vars : VarMap) (refs : Refs)
    (varId : Nat) (addRef : Bool) (idx : Nat) :
    (dpiStmt__bindPerform stmt vars refs varId addRef idx {}).res = .ok () ∧
    (dpiStmt__bindPerform stmt vars refs varId addRef idx {}).stmt =
      setEntryVar stmt idx (some varId) ∧
    (dpiStmt__bindPerform stmt vars refs varId addRef idx {}).refs =
      (if addRef then adjVarRef refs varId 1 else refs) := by
  simp only [dpiStmt__bindPerform, Option.isSome_none, and_false, if_false,
    Bool.false_eq_true, setEntryVar]
  split
  · exact ⟨rfl, rfl, rfl⟩
  · exact ⟨rfl, rfl, rfl⟩

/-- Claim C7 (amended: the rejection error is `NotSupported`, as produced by
`dpiError__set(error, "bind zero length name", DPI_ERR_NOT_SUPPORTED)`): a
bind call whose locator has position 0 and name length 0 is rejected before
any protocol call is made (zero protocol calls issued), leaving the bind
registry, the variable map and the reference counts unchanged — both for
the internal bind and through the public by-position and by-name entry
points on an open statement. -/
theorem C7_zero_locator_rejected (stmt : DpiStmt) (vars : VarMap) (refs : Refs)
    (varId : Nat) (addRef : Bool) (name : Option (List Char)) (nm : List Char)
    (env : BindEnv) (cenv : CheckOpenEnv)
    (hfn : cenv.startFnOk = true) (hopen : stmt.handle = true)
    (hconn : stmt.connHandle = true) (hcl : stmt.connClosing = false)
    (hty : stmt.statementType ≠ 0) :
    dpiStmt__bind stmt vars refs varId addRef 0 name 0 env =
      ⟨.error .notSupported, stmt, vars, refs, 0⟩ ∧
    dpiStmt_bindByPos stmt vars refs 0 varId cenv true env =
      ⟨.error .notSupported, stmt, vars, refs, 0⟩ ∧
    dpiStmt_bindByName stmt vars refs nm 0 varId cenv true env =
      ⟨.error .notSupported, stmt, vars, refs, 0⟩ := by
  refine ⟨by simp [dpiStmt__bind], ?_, ?_⟩
  · simp [dpiStmt_bindByPos, checkOpen_open stmt cenv hfn hopen hconn hcl hty, dpiStmt__bind]
  · simp [dpiStmt_bindByName, checkOpen_open stmt cenv hfn hopen hconn hcl hty, dpiStmt__bind]

/-- Witness for C7 at a concrete open statement. -/
theorem C7_zero_locator_rejected_witness :
    dpiStmt__bind sampleOpenStmt sampleVars sampleRefs 1 true 0 none 0 {} =
      ⟨.error .notSupported, sampleOpenStmt, sampleVars, sampleRefs, 0⟩ ∧
    dpiStmt_bindByPos sampleOpenStmt sampleVars sampleRefs 0 1 {} true {} =
      ⟨.error .notSupported, sampleOpenStmt, sampleVars, sampleRefs, 0⟩ ∧
    dpiStmt_bindByName sampleOpenStmt sampleVars sampleRefs [] 0 1 {} true {} =
      ⟨.error .notSupported, sampleOpenStmt, sampleVars, sampleRefs, 0⟩ :=
  C7_zero_locator_rejected sampleOpenStmt sampleVars sampleRefs 1 true none [] {} {}
    rfl rfl rfl rfl (by decide)

/-- Counterexample for C7 as stated: the all-zero locator is rejected with
`NotSupported`, which is not the `InvalidArgument` error the claim names. -/
theorem C7_zero_locator_counterexample :
    (dpiStmt__bind sampleOpenStmt sampleVars sampleRefs 1 true 0 none 0 {}).res =
      .error .notSupported ∧
    DpiErr.notSupported ≠ DpiErr.invalidArgument := by
  exact ⟨rfl, by decide⟩

/-- Claim C8: calling close on an already-closed statement is detected by the
open/closed guard (`stmtClosed`) and the close sequence is not re-entered:
the statement state and every reference count are left unchanged. -/
theorem C8_close_already_closed_noop (stmt : DpiStmt) (refs : Refs) (env : CloseEnv)
    (hfn : env.checkOpen.startFnOk = true) (hclosed : stmt.handle = false) :
    dpiStmt_close stmt refs env = ⟨.error .stmtClosed, stmt, refs⟩ := by
  simp [dpiStmt_close, dpiStmt__checkOpen, hfn, hclosed]

/-- Witness for C8 at a concrete closed statement. -/
theorem C8_close_already_closed_noop_witness :
    dpiStmt_close sampleClosedStmt sampleRefs {} =
      ⟨.error .stmtClosed, sampleClosedStmt, sampleRefs⟩ :=
  C8_close_already_closed_noop sampleClosedStmt sampleRefs {} rfl rfl

/-- Claim C10: with the buffered window exhausted and no more rows to fetch,
the single-row fetch reports success with no row found and the batch fetch
reports success with zero rows, index 0 and no more rows — end of result
set is never a failure, no protocol fetch is issued, and the state is left
unchanged. -/
theorem C10_end_of_result_set (stmt : DpiStmt) (vars : VarMap) (refs : Refs)
    (env : FetchCallEnv) (maxRows : Nat)
    (hfn : env.checkOpen.startFnOk = true) (hopen : stmt.handle = true)
    (hconn : stmt.connHandle = true) (hcl : stmt.connClosing = false)
    (hty : stmt.statementType ≠ 0)
    (hex : stmt.bufferRowIndex ≥ stmt.bufferRowCount)
    (hnomore : stmt.hasRowsToFetch = false) :
    dpiStmt_fetch stmt vars refs env = ⟨.ok none, stmt, refs, 0⟩ ∧
    dpiStmt_fetchRows stmt vars refs maxRows env = ⟨.ok (0, 0, false), stmt, refs, 0⟩ := by
  constructor
  · simp [dpiStmt_fetch, checkOpen_open stmt env.checkOpen hfn hopen hconn hcl hty,
      hex, hnomore]
  · simp [dpiStmt_fetchRows, checkOpen_open stmt env.checkOpen hfn hopen hconn hcl hty,
      hex, hnomore]

/-- Witness for C10 at a concrete exhausted query statement. -/
theorem C10_end_of_result_set_witness :
    dpiStmt_fetch { sampleOpenStmt with statementType := 1 } sampleVars sampleRefs {} =
      ⟨.ok none, { sampleOpenStmt with statementType := 1 }, sampleRefs, 0⟩ ∧
    dpiStmt_fetchRows { sampleOpenStmt with statementType := 1 } sampleVars sampleRefs 5 {} =
      ⟨.ok (0, 0, false), { sampleOpenStmt with statementType := 1 }, sampleRefs, 0⟩ :=
  C10_end_of_result_set { sampleOpenStmt with statementType := 1 } sampleVars sampleRefs {} 5
    rfl rfl rfl rfl (by decide) (by decide) rfl

/-- Claim C9: a protocol execute failure that does not take the recovery path
(recovery not permitted, or a server code other than 1007) marks the
statement for eviction from the statement cache unless the code is exactly
1 (unique constraint violated), in which case the flag is left unchanged;
the failure is propagated either way and no recovery is entered. -/
theorem C9_evict_on_execute_failure (stmt : DpiStmt) (vars : VarMap) (refs : Refs)
    (re : Bool) (c : Nat) (env : ExecEnv)
    (hflush : execTransferBindsList stmt.bindVars vars = none)
    (hpf : env.prefetchSetErr = none)
    (hexec : env.execResult1 = some c)
    (hnr : re = false ∨ c ≠ 1007) :
    (dpiStmt__execute stmt vars refs re env).res = .error (.ociError c) ∧
    (dpiStmt__execute stmt vars refs re env).stmt.deleteFromCache =
      (if c ≠ 1 then true else stmt.deleteFromCache) ∧
    (dpiStmt__execute stmt vars refs re env).recoveries = 0 := by
  rcases hnr with hre | hc
  · subst hre
    simp [dpiStmt__execute, dpiStmt__executeCore, hflush, hpf, hexec,
      dpiStmt__clearBatchErrors]
  · cases re <;>
      simp [dpiStmt__execute, dpiStmt__executeCore, hflush, hpf, hexec, hc,
        dpiStmt__clearBatchErrors]

/-- Witness for C9 at a concrete statement and failing server code 5. -/
theorem C9_evict_on_execute_failure_witness :
    (dpiStmt__execute sampleOpenStmt sampleVars sampleRefs true
        { execResult1 := some 5 }).res = .error (.ociError 5) ∧
    (dpiStmt__execute sampleOpenStmt sampleVars sampleRefs true
        { execResult1 := some 5 }).stmt.deleteFromCache =
      (if (5 : Nat) ≠ 1 then true else sampleOpenStmt.deleteFromCache) ∧
    (dpiStmt__execute sampleOpenStmt sampleVars sampleRefs true
        { execResult1 := some 5 }).recoveries = 0 :=
  C9_evict_on_execute_failure sampleOpenStmt sampleVars sampleRefs true 5
    { execResult1 := some 5 } rfl rfl rfl (Or.inr (by decide))

/-- Execution without a recovery continuation never enters recovery. -/
theorem executeCore_none_recoveries (stmt : DpiStmt) (vars : VarMap) (refs : Refs)
    (thisExec : Option Nat) (env : ExecEnv) :
    (dpiStmt__executeCore none stmt vars refs thisExec env).recoveries = 0 := by
  simp only [dpiStmt__executeCore]
  repeat' split
  all_goals rfl

/-- Execution without a recovery continuation issues at most one protocol
execute call. -/
theorem executeCore_none_execCalls (stmt : DpiStmt) (vars : VarMap) (refs : Refs)
    (thisExec : Option Nat) (env : ExecEnv) :
    (dpiStmt__executeCore none stmt vars refs thisExec env).execCalls ≤ 1 := by
  simp only [dpiStmt__executeCore]
  repeat' split
  all_goals simp

/-- Execution without a recovery continuation cannot succeed when its
protocol execute call fails. -/
theorem executeCore_none_fail (stmt : DpiStmt) (vars : VarMap) (refs : Refs)
    (c : Nat) (env : ExecEnv) :
    (dpiStmt__executeCore none stmt vars refs (some c) env).res ≠ .ok () := by
  simp only [dpiStmt__executeCore]
  repeat' split
  all_goals simp

/-- The recovery path itself never re-enters recovery. -/
theorem reExecute_recoveries (stmt : DpiStmt) (vars : VarMap) (refs : Refs)
    (c : Nat) (env : ExecEnv) :
    (dpiStmt__reExecute stmt vars refs c env).recoveries = 0 := by
  simp only [dpiStmt__reExecute]
  repeat' split
  all_goals first
    | rfl
    | exact executeCore_none_recoveries _ _ _ _ _

/-- The recovery path issues at most one protocol execute call. -/
theorem reExecute_execCalls (stmt : DpiStmt) (vars : VarMap) (refs : Refs)
    (c : Nat) (env : ExecEnv) :
    (dpiStmt__reExecute stmt vars refs c env).execCalls ≤ 1 := by
  simp only [dpiStmt__reExecute]
  split
  · simp
  · split
    · simp
    · split
      · simp
      · exact executeCore_none_execCalls _ _ _ _ _

/-- The recovery path cannot succeed when the re-executed protocol call fails
again. -/
theorem reExecute_fail (stmt : DpiStmt) (vars : VarMap) (refs : Refs)
    (c c2 : Nat) (env : ExecEnv) (h2 : env.execResult2 = some c2) :
    (dpiStmt__reExecute stmt vars refs c env).res ≠ .ok () := by
  simp only [dpiStmt__reExecute, h2]
  split
  · simp
  · split
    · simp
    · split
      · simp
      · exact executeCore_none_fail _ _ _ _ _

/-- Claim C1: for every execute call, the stale-metadata recovery path is
entered at most once — never when recovery is disabled, and only when the
fresh top-level protocol execute fails with server code 1007 — the whole
call issues at most two protocol execute calls, and when the re-executed
call fails with 1007 again the failure propagates instead of recursing. -/
theorem C1_recovery_at_most_once (stmt : DpiStmt) (vars : VarMap) (refs : Refs)
    (env : ExecEnv) :
    (dpiStmt__execute stmt vars refs false env).recoveries = 0 ∧
    (dpiStmt__execute stmt vars refs true env).recoveries ≤ 1 ∧
    ((dpiStmt__execute stmt vars refs true env).recoveries = 1 →
      env.execResult1 = some 1007) ∧
    (env.execResult1 = some 1007 → env.execResult2 = some 1007 →
      (dpiStmt__execute stmt vars refs true env).res ≠ .ok ()) ∧
    (dpiStmt__execute stmt vars refs true env).execCalls ≤ 2 := by
  have hveq : dpiStmt__execute stmt vars refs true env =
      dpiStmt__executeCore (some (fun s v r c => dpiStmt__reExecute s v r c env))
        stmt vars refs env.execResult1 env := rfl
  refine ⟨?_, ?_, ?_, ?_, ?_⟩
  · exact executeCore_none_recoveries stmt vars refs env.execResult1 env
  · rw [hveq]
    simp only [dpiStmt__executeCore]
    repeat' split
    all_goals simp [reExecute_recoveries]
  · intro h
    rw [hveq] at h
    simp only [dpiStmt__executeCore] at h
    repeat' split at h
    all_goals simp_all [reExecute_recoveries]
  · intro h1 h2
    rw [hveq, h1]
    simp only [dpiStmt__executeCore]
    repeat' split
    all_goals first
      | exact reExecute_fail _ _ _ _ _ _ h2
      | simp
  · rw [hveq]
    simp only [dpiStmt__executeCore]
    repeat' split
    all_goals first
      | exact Nat.succ_le_succ (reExecute_execCalls _ _ _ _ _)
      | simp

/-- Witness for C1 at a concrete statement and environment where both
protocol execute calls report 1007. -/
theorem C1_recovery_at_most_once_witness :
    (dpiStmt__execute sampleOpenStmt sampleVars sampleRefs true c1env).recoveries ≤ 1 ∧
    (dpiStmt__execute sampleOpenStmt sampleVars sampleRefs true c1env).res ≠ .ok () ∧
    (dpiStmt__execute sampleOpenStmt sampleVars sampleRefs false c1env).recoveries = 0 :=
  ⟨(C1_recovery_at_most_once sampleOpenStmt sampleVars sampleRefs c1env).2.1,
    (C1_recovery_at_most_once sampleOpenStmt sampleVars sampleRefs c1env).2.2.2.1 rfl rfl,
    (C1_recovery_at_most_once sampleOpenStmt sampleVars sampleRefs c1env).1⟩

/-- Claim C2: rebinding an already-bound valid locator with a different value
resource releases the previously bound resource's reference exactly once
and replaces the registry entry in place (no duplicate appended, no other
reference count touched); in the concrete scenario, after binding position
1 to A and then to B, the registry still holds 1 entry, A's reference count
is back down (decremented from the value it had after the first bind), B
holds one reference, and the bind count reported from the protocol handle
is unchanged by the rebind. -/
theorem C2_rebind_releases_once (stmt : DpiStmt) (vars : VarMap) (refs : Refs)
    (pos nameLength i A B : Nat) (name : Option (List Char))
    (hval : ¬(pos = 0 ∧ nameLength = 0))
    (hfind : stmt.bindVars.findIdx?
      (fun e => bindVarMatches e pos nameLength (name.getD [])) = some i)
    (hold : (stmt.bindVars.getD i default).var = some A)
    (hAB : A ≠ B) :
    ((dpiStmt__bind stmt vars refs B true pos name nameLength {}).res = .ok () ∧
     (dpiStmt__bind stmt vars refs B true pos name nameLength {}).stmt.bindVars.length =
       stmt.bindVars.length ∧
     (dpiStmt__bind stmt vars refs B true pos name nameLength {}).stmt.bindVars.getD i default =
       { stmt.bindVars.getD i default with var := some B } ∧
     (dpiStmt__bind stmt vars refs B true pos name nameLength {}).refs.var A =
       refs.var A - 1 ∧
     (dpiStmt__bind stmt vars refs B true pos name nameLength {}).refs.var B =
       refs.var B + 1 ∧
     (∀ x, x ≠ A → x ≠ B →
       (dpiStmt__bind stmt vars refs B true pos name nameLength {}).refs.var x =
         refs.var x)) ∧
    (c2bindA.refs.var 0 = 1 ∧
     c2bindB.refs.var 0 = 0 ∧
     c2bindB.refs.var 1 = 1 ∧
     c2bindB.stmt.bindVars.length = 1 ∧
     dpiStmt_getBindCount c2bindA.stmt {} (some 1) = .ok 1 ∧
     dpiStmt_getBindCount c2bindB.stmt {} (some 1) = .ok 1) := by
  have hi : i < stmt.bindVars.length := by
    have h2 := List.findIdx?_eq_some_iff_findIdx_eq.mp hfind
    omega
  constructor
  · have hbind : dpiStmt__bind stmt vars refs B true pos name nameLength {} =
        dpiStmt__bindPerform (setEntryVar stmt i none)
          vars (adjVarRef refs A (-1)) B true i {} := by
      simp only [dpiStmt__bind, if_neg hval, hfind, hold, Option.some.injEq, hAB,
        if_false, setEntryVar]
    rw [hbind]
    obtain ⟨h1, h2, h3⟩ := bindPerform_default (setEntryVar stmt i none)
      vars (adjVarRef refs A (-1)) B true i
    rw [h1, h2, h3]
    refine ⟨rfl, by simp [setEntryVar], ?_, ?_, ?_, ?_⟩
    · simp [setEntryVar, List.getD_eq_getElem?_getD, List.getElem?_set_self',
        List.getElem?_eq_getElem, List.set_set, hi]
    · rw [if_pos rfl, adjVarRef_var_other _ _ _ _ hAB, adjVarRef_var_self]
      omega
    · rw [if_pos rfl, adjVarRef_var_self, adjVarRef_var_other _ _ _ _ (Ne.symm hAB)]
    · intro x hx1 hx2
      rw [if_pos rfl, adjVarRef_var_other _ _ _ _ hx2, adjVarRef_var_other _ _ _ _ hx1]
  · refine ⟨by decide, by decide, by decide, by decide, rfl, rfl⟩

/-- Witness for C2 at a concrete statement whose registry already binds
position 1 to resource 0, rebound to resource 1. -/
theorem C2_rebind_releases_once_witness :
    ((dpiStmt__bind { sampleOpenStmt with
        bindVars := [{ pos := 1, var := some 0 }], allocatedBindVars := 8 }
        sampleVars sampleRefs 1 true 1 none 0 {}).res = .ok () ∧
     (dpiStmt__bind { sampleOpenStmt with
        bindVars := [{ pos := 1, var := some 0 }], allocatedBindVars := 8 }
        sampleVars sampleRefs 1 true 1 none 0 {}).stmt.bindVars.length = 1 ∧
     (dpiStmt__bind { sampleOpenStmt with
        bindVars := [{ pos := 1, var := some 0 }], allocatedBindVars := 8 }
        sampleVars sampleRefs 1 true 1 none 0 {}).refs.var 0 = 0 - 1) := by
  have h := C2_rebind_releases_once { sampleOpenStmt with
      bindVars := [{ pos := 1, var := some 0 }], allocatedBindVars := 8 }
    sampleVars sampleRefs 1 0 0 0 1 none (by decide) (by decide) (by decide) (by decide)
  exact ⟨h.1.1, h.1.2.1, h.1.2.2.2.1⟩

/-- Claim C6: batch-error collection is all-or-nothing.  Whenever
`dpiStmt__getBatchErrors` fails — at the count read, an allocation, or any
per-index collection step — every partially collected record is discarded
and a subsequent batch-error-count query reports zero; concretely, with 3
reported errors where collecting index 1's row offset fails, the
row-offset-collection failure itself is surfaced and zero records remain. -/
theorem C6_batch_errors_all_or_nothing (stmt : DpiStmt) (env : BatchEnv) (e : DpiErr)
    (cenv : CheckOpenEnv)
    (h : (dpiStmt__getBatchErrors stmt env).1 = .error e)
    (h0 : stmt.numBatchErrors = 0) (hb : stmt.batchErrors = [])
    (hfn : cenv.startFnOk = true) (hopen : stmt.handle = true)
    (hconn : stmt.connHandle = true) (hcl : stmt.connClosing = false)
    (hty : stmt.statementType ≠ 0) :
    (dpiStmt__getBatchErrors stmt env).2.numBatchErrors = 0 ∧
    (dpiStmt__getBatchErrors stmt env).2.batchErrors = [] ∧
    dpiStmt_getBatchErrorCount (dpiStmt__getBatchErrors stmt env).2 cenv = .ok 0 ∧
    (dpiStmt__getBatchErrors sampleOpenStmt
        { numErrorsAttr := some 3, iters := [.ok 4, .rowOffsetFail] }).1 =
      .error .cannotGetRowOffset ∧
    (dpiStmt__getBatchErrors sampleOpenStmt
        { numErrorsAttr := some 3, iters := [.ok 4, .rowOffsetFail] }).2.numBatchErrors = 0 := by
  have hcnt : ∀ s : DpiStmt, s.handle = true → s.connHandle = true → s.connClosing = false →
      s.statementType ≠ 0 → dpiStmt_getBatchErrorCount s cenv = .ok s.numBatchErrors := by
    intro s h1 h2 h3 h4
    simp [dpiStmt_getBatchErrorCount, checkOpen_open s cenv hfn h1 h2 h3 h4]
  have hmain : (dpiStmt__getBatchErrors stmt env).2.numBatchErrors = 0 ∧
      (dpiStmt__getBatchErrors stmt env).2.batchErrors = [] ∧
      dpiStmt_getBatchErrorCount (dpiStmt__getBatchErrors stmt env).2 cenv = .ok 0 := by
    rcases hnum : env.numErrorsAttr with _ | n
    · refine ⟨?_, ?_, ?_⟩ <;> simp only [dpiStmt__getBatchErrors, hnum]
      · exact h0
      · exact hb
      · rw [hcnt stmt hopen hconn hcl hty, h0]
    · by_cases halloc : env.allocOk
      · by_cases hh1 : env.allocHandle1Ok
        · by_cases hh2 : env.allocHandle2Ok
          · rcases hloop : batchErrorsLoop env.iters n 0 (List.replicate n default) with ⟨r, recs⟩
            rcases r with e2 | u
            · refine ⟨?_, ?_, ?_⟩ <;>
                simp [dpiStmt__getBatchErrors, hnum, halloc, hh1, hh2, hloop,
                  dpiStmt__clearBatchErrors]
              exact hcnt _ hopen hconn hcl hty
            · simp [dpiStmt__getBatchErrors, hnum, halloc, hh1, hh2, hloop] at h
          · refine ⟨?_, ?_, ?_⟩ <;>
              simp [dpiStmt__getBatchErrors, hnum, halloc, hh1, hh2, dpiStmt__clearBatchErrors]
            exact hcnt _ hopen hconn hcl hty
        · refine ⟨?_, ?_, ?_⟩ <;>
            simp [dpiStmt__getBatchErrors, hnum, halloc, hh1, dpiStmt__clearBatchErrors]
          exact hcnt _ hopen hconn hcl hty
      · refine ⟨?_, ?_, ?_⟩ <;>
          simp [dpiStmt__getBatchErrors, hnum, halloc, hb]
        exact hcnt _ hopen hconn hcl hty
  exact ⟨hmain.1, hmain.2.1, hmain.2.2, rfl, by decide⟩

/-- Witness for C6 at the concrete mid-collection failure. -/
theorem C6_batch_errors_all_or_nothing_witness :
    (dpiStmt__getBatchErrors sampleOpenStmt
        { numErrorsAttr := some 3, iters := [.ok 4, .rowOffsetFail] }).2.numBatchErrors = 0 ∧
    dpiStmt_getBatchErrorCount
      (dpiStmt__getBatchErrors sampleOpenStmt
        { numErrorsAttr := some 3, iters := [.ok 4, .rowOffsetFail] }).2 {} = .ok 0 := by
  have h := C6_batch_errors_all_or_nothing sampleOpenStmt
    { numErrorsAttr := some 3, iters := [.ok 4, .rowOffsetFail] } .cannotGetRowOffset {}
    rfl rfl rfl rfl rfl rfl rfl (by decide)
  exact ⟨h.1, h.2.2.1⟩

/-- Counterexample for C3 as stated: with an exhausted window, more rows
known to exist, and zero rows requested, the window trivially holds at
least the requested number of rows (0 ≤ remaining), yet `dpiStmt_fetchRows`
still issues a protocol-level fetch call. -/
theorem C3_fetch_buffering_counterexample :
    (0 : Nat) ≤ c3exhausted.bufferRowCount - c3exhausted.bufferRowIndex ∧
    (dpiStmt_fetchRows c3exhausted c3vars sampleRefs 0 c3env).fetchCalls = 1 := by
  exact ⟨by decide, by decide⟩

/-- Claim C3 (amended: the no-protocol-fetch guarantee holds when the window
already covers the request and at least one row is requested — a request
for zero rows on an exhausted window still triggers a protocol fetch):
single-row fetch and batch fetch issue a protocol-level fetch only when the
buffered window is exhausted and more rows are known to exist; a window
holding at least one row (covering the nonzero request) is consumed with no
protocol call; and with fetch array size 3, the first fetch call pulls a
batch, fetches 2 and 3 consume it silently, and the fourth triggers a new
protocol-level fetch. -/
theorem C3_fetch_buffering (stmt : DpiStmt) (vars : VarMap) (refs : Refs)
    (env : FetchCallEnv) (maxRows : Nat)
    (hfn : env.checkOpen.startFnOk = true) (hopen : stmt.handle = true)
    (hconn : stmt.connHandle = true) (hcl : stmt.connClosing = false)
    (hty : stmt.statementType ≠ 0) :
    ((dpiStmt_fetch stmt vars refs env).fetchCalls ≠ 0 →
      stmt.bufferRowIndex ≥ stmt.bufferRowCount ∧ stmt.hasRowsToFetch = true) ∧
    ((dpiStmt_fetchRows stmt vars refs maxRows env).fetchCalls ≠ 0 →
      stmt.bufferRowIndex ≥ stmt.bufferRowCount ∧ stmt.hasRowsToFetch = true) ∧
    (stmt.bufferRowIndex < stmt.bufferRowCount →
      (dpiStmt_fetch stmt vars refs env).fetchCalls = 0) ∧
    (1 ≤ maxRows → maxRows ≤ stmt.bufferRowCount - stmt.bufferRowIndex →
      (dpiStmt_fetchRows stmt vars refs maxRows env).fetchCalls = 0) ∧
    c3fetch1.fetchCalls = 1 ∧ c3fetch2.fetchCalls = 0 ∧
    c3fetch3.fetchCalls = 0 ∧ c3fetch4.fetchCalls = 1 := by
  have hco := checkOpen_open stmt env.checkOpen hfn hopen hconn hcl hty
  refine ⟨?_, ?_, ?_, ?_, by decide, by decide, by decide, by decide⟩
  · by_cases hex : stmt.bufferRowIndex ≥ stmt.bufferRowCount
    · by_cases hmore : stmt.hasRowsToFetch
      · exact fun _ => ⟨hex, hmore⟩
      · intro hc
        exfalso
        apply hc
        simp [dpiStmt_fetch, hco, hex, hmore]
    · intro hc
      exfalso
      apply hc
      simp [dpiStmt_fetch, hco, hex]
  · by_cases hex : stmt.bufferRowIndex ≥ stmt.bufferRowCount
    · by_cases hmore : stmt.hasRowsToFetch
      · exact fun _ => ⟨hex, hmore⟩
      · intro hc
        exfalso
        apply hc
        simp [dpiStmt_fetchRows, fetchRowsTail, hco, hex, hmore]
    · intro hc
      exfalso
      apply hc
      simp [dpiStmt_fetchRows, fetchRowsTail, hco, hex]
  · intro hlt
    simp [dpiStmt_fetch, hco, not_le.mpr hlt]
  · intro h1 h2
    have hlt : stmt.bufferRowIndex < stmt.bufferRowCount := by omega
    simp [dpiStmt_fetchRows, fetchRowsTail, hco, not_le.mpr hlt]

/-- Witness for C3 at the concrete scenario state after the first fetch. -/
theorem C3_fetch_buffering_witness :
    (dpiStmt_fetchRows c3fetch1.stmt c3vars c3fetch1.refs 2 c3env).fetchCalls = 0 ∧
    c3fetch1.fetchCalls = 1 ∧ c3fetch2.fetchCalls = 0 ∧
    c3fetch3.fetchCalls = 0 ∧ c3fetch4.fetchCalls = 1 := by
  have h := C3_fetch_buffering c3fetch1.stmt c3vars c3fetch1.refs c3env 2
    rfl (by decide) (by decide) (by decide) (by decide)
  exact ⟨h.2.2.2.1 (by decide) (by decide), h.2.2.2.2⟩

/-- Claim C4: for scroll modes other than `last`, a desired row inside the
buffered window repositions only the in-window index (no protocol call:
`bufferRowIndex` re-seeked, `rowCount` updated, everything else untouched);
a desired row outside the window issues exactly one positioned protocol
fetch, and when it reads back `n ≠ 0` rows with current position `p` the
new window base is recomputed consistently with
`currentPosition - bufferRowCount`: `bufferMinRow = p - n + 1`,
`bufferRowIndex = 0` and `rowCount = p - n`. -/
theorem C4_scroll_window (stmt : DpiStmt) (vars : VarMap) (refs : Refs)
    (mode : DpiFetchMode) (offset rowCountOffset : Int) (env : ScrollEnv) (n p : Nat)
    (hfn : env.checkOpen.startFnOk = true) (hopen : stmt.handle = true)
    (hconn : stmt.connHandle = true) (hcl : stmt.connClosing = false)
    (hty : stmt.statementType ≠ 0)
    (hlast : mode ≠ .last) (hinv : mode ≠ .invalid) :
    (scrollDesiredRow stmt mode offset rowCountOffset ≥ stmt.bufferMinRow →
     scrollDesiredRow stmt mode offset rowCountOffset <
       u64ofInt ((stmt.bufferMinRow : Int) + (stmt.bufferRowCount : Int)) →
     dpiStmt_scroll stmt vars refs mode offset rowCountOffset env =
       ⟨.ok (), { stmt with
           bufferRowIndex := u32ofInt
             ((scrollDesiredRow stmt mode offset rowCountOffset : Int) -
               (stmt.bufferMinRow : Int)),
           rowCount := u64ofInt
             ((scrollDesiredRow stmt mode offset rowCountOffset : Int) - 1) },
         refs, 0⟩) ∧
    (¬(scrollDesiredRow stmt mode offset rowCountOffset ≥ stmt.bufferMinRow ∧
       scrollDesiredRow stmt mode offset rowCountOffset <
         u64ofInt ((stmt.bufferMinRow : Int) + (stmt.bufferRowCount : Int))) →
     dpiStmt__preFetch stmt vars refs env.pre = ⟨.ok (), stmt, refs⟩ →
     env.callErr = none →
     (dpiStmt_scroll stmt vars refs mode offset rowCountOffset env).fetchCalls = 1 ∧
     (env.rowsAttr = some n → n ≠ 0 → env.curPosAttr = some p → n ≤ p → p < 2 ^ 32 →
      env.postFetchRes = .ok () →
      (dpiStmt_scroll stmt vars refs mode offset rowCountOffset env).res = .ok () ∧
      (dpiStmt_scroll stmt vars refs mode offset rowCountOffset env).stmt.bufferMinRow =
        p - n + 1 ∧
      (dpiStmt_scroll stmt vars refs mode offset rowCountOffset env).stmt.bufferRowCount = n ∧
      (dpiStmt_scroll stmt vars refs mode offset rowCountOffset env).stmt.bufferRowIndex = 0 ∧
      (dpiStmt_scroll stmt vars refs mode offset rowCountOffset env).stmt.rowCount = p - n)) := by
  have hco := checkOpen_open stmt env.checkOpen hfn hopen hconn hcl hty
  constructor
  · intro h1 h2
    simp only [dpiStmt_scroll, hco]
    rw [if_neg hinv, if_pos ⟨hlast, h1, h2⟩]
  · intro hwin hpf hcall
    have hnc : ¬(mode ≠ DpiFetchMode.last ∧
        scrollDesiredRow stmt mode offset rowCountOffset ≥ stmt.bufferMinRow ∧
        scrollDesiredRow stmt mode offset rowCountOffset <
          u64ofInt ((stmt.bufferMinRow : Int) + (stmt.bufferRowCount : Int))) := by
      intro hc
      exact hwin ⟨hc.2.1, hc.2.2⟩
    constructor
    · simp only [dpiStmt_scroll, hco]
      rw [if_neg hinv, if_neg hnc]
      simp only [hpf, hcall]
      rcases hr : env.rowsAttr with _ | m
      · simp only [hr]
      · simp only [hr]
        split
        · split <;> rfl
        · rcases hq : env.curPosAttr with _ | q
          · simp only [hq]
          · simp only [hq]
            rcases hp2 : env.postFetchRes with e2 | u2 <;> simp only [hp2]
    · intro hrows hn0 hcur hle hlt hpost
      simp only [dpiStmt_scroll, hco]
      rw [if_neg hinv, if_neg hnc]
      simp only [hpf, hcall, hrows, hcur, hpost]
      rw [if_neg hn0]
      refine ⟨rfl, ?_, rfl, rfl, ?_⟩
      · rw [u32ofInt_sub p n hle hlt]
      · rw [u32ofInt_sub p n hle hlt]

/-- Witness for C4 at a concrete scrollable statement: absolute scroll to row
2 repositions in-window with no protocol fetch; absolute scroll to row 10
issues one positioned fetch and recomputes the window base as
currentPosition 10 − 3 rows + 1 = 8. -/
theorem C4_scroll_window_witness :
    (dpiStmt_scroll c4stmt c3vars sampleRefs .absolute 2 0 c4env).fetchCalls = 0 ∧
    (dpiStmt_scroll c4stmt c3vars sampleRefs .absolute 10 0 c4env).fetchCalls = 1 ∧
    (dpiStmt_scroll c4stmt c3vars sampleRefs .absolute 10 0 c4env).stmt.bufferMinRow = 8 := by
  have h1 := C4_scroll_window c4stmt c3vars sampleRefs .absolute 2 0 c4env 3 10
    rfl rfl rfl rfl (by decide) (by decide) (by decide)
  have h2 := C4_scroll_window c4stmt c3vars sampleRefs .absolute 10 0 c4env 3 10
    rfl rfl rfl rfl (by decide) (by decide) (by decide)
  refine ⟨?_, ?_, ?_⟩
  · rw [h1.1 (by decide) (by decide)]
  · exact (h2.2 (by decide) rfl rfl).1
  · exact ((h2.2 (by decide) rfl rfl).2 rfl (by decide) rfl (by decide) (by decide) rfl).2.1

/-- Claim C5: a scroll call that reaches the positioned protocol fetch and
reads back zero rows fetched succeeds as an empty result set for modes
`first` and `last` (row count, window bounds and index all reset to zero,
no more rows to fetch), and fails with `ScrollOutOfResultSet` for every
other mode; in particular mode `absolute` with offset 1 on an unfetched
scrollable cursor with no matching rows returns `ScrollOutOfResultSet`, not
a zero-row success. -/
theorem C5_scroll_zero_rows (stmt : DpiStmt) (vars : VarMap) (refs : Refs)
    (mode : DpiFetchMode) (offset rowCountOffset : Int) (env : ScrollEnv)
    (hfn : env.checkOpen.startFnOk = true) (hopen : stmt.handle = true)
    (hconn : stmt.connHandle = true) (hcl : stmt.connClosing = false)
    (hty : stmt.statementType ≠ 0) (hinv : mode ≠ .invalid)
    (henter : mode = .last ∨
      ¬(scrollDesiredRow stmt mode offset rowCountOffset ≥ stmt.bufferMinRow ∧
        scrollDesiredRow stmt mode offset rowCountOffset <
          u64ofInt ((stmt.bufferMinRow : Int) + (stmt.bufferRowCount : Int))))
    (hpf : dpiStmt__preFetch stmt vars refs env.pre = ⟨.ok (), stmt, refs⟩)
    (hcall : env.callErr = none)
    (hrows : env.rowsAttr = some 0) :
    ((mode = .first ∨ mode = .last) →
      (dpiStmt_scroll stmt vars refs mode offset rowCountOffset env).res = .ok () ∧
      (dpiStmt_scroll stmt vars refs mode offset rowCountOffset env).stmt.hasRowsToFetch =
        false ∧
      (dpiStmt_scroll stmt vars refs mode offset rowCountOffset env).stmt.rowCount = 0 ∧
      (dpiStmt_scroll stmt vars refs mode offset rowCountOffset env).stmt.bufferRowIndex = 0 ∧
      (dpiStmt_scroll stmt vars refs mode offset rowCountOffset env).stmt.bufferMinRow = 0 ∧
      (dpiStmt_scroll stmt vars refs mode offset rowCountOffset env).stmt.bufferRowCount = 0 ∧
      (dpiStmt_scroll stmt vars refs mode offset rowCountOffset env).fetchCalls = 1) ∧
    (mode ≠ .first → mode ≠ .last →
      (dpiStmt_scroll stmt vars refs mode offset rowCountOffset env).res =
        .error .scrollOutOfRS) ∧
    (dpiStmt_scroll c5stmt c3vars sampleRefs .absolute 1 0 c5env).res =
      .error .scrollOutOfRS := by
  have hco := checkOpen_open stmt env.checkOpen hfn hopen hconn hcl hty
  have hnc : ¬(mode ≠ DpiFetchMode.last ∧
      scrollDesiredRow stmt mode offset rowCountOffset ≥ stmt.bufferMinRow ∧
      scrollDesiredRow stmt mode offset rowCountOffset <
        u64ofInt ((stmt.bufferMinRow : Int) + (stmt.bufferRowCount : Int))) := by
    intro hc
    rcases henter with hl | hw
    · exact hc.1 hl
    · exact hw ⟨hc.2.1, hc.2.2⟩
  refine ⟨?_, ?_, rfl⟩
  · intro hfl
    have hcond : ¬(mode ≠ DpiFetchMode.first ∧ mode ≠ DpiFetchMode.last) := by
      intro hc
      rcases hfl with hf | hl
      · exact hc.1 hf
      · exact hc.2 hl
    simp only [dpiStmt_scroll, hco]
    rw [if_neg hinv, if_neg hnc]
    simp [hpf, hcall, hrows, hcond]
  · intro hf hl
    simp only [dpiStmt_scroll, hco]
    rw [if_neg hinv, if_neg hnc]
    simp [hpf, hcall, hrows, hf, hl]

/-- Witness for C5 at the concrete unfetched scrollable cursor, in both the
failing `absolute` instance and the succeeding `first` instance. -/
theorem C5_scroll_zero_rows_witness :
    (dpiStmt_scroll c5stmt c3vars sampleRefs .absolute 1 0 c5env).res =
      .error .scrollOutOfRS ∧
    (dpiStmt_scroll c5stmt c3vars sampleRefs .first 0 0 c5env).res = .ok () ∧
    (dpiStmt_scroll c5stmt c3vars sampleRefs .first 0 0 c5env).stmt.hasRowsToFetch =
      false := by
  have ha := C5_scroll_zero_rows c5stmt c3vars sampleRefs .absolute 1 0 c5env
    rfl rfl rfl rfl (by decide) (by decide) (Or.inr (by decide)) rfl rfl rfl
  have hb := C5_scroll_zero_rows c5stmt c3vars sampleRefs .first 0 0 c5env
    rfl rfl rfl rfl (by decide) (by decide) (Or.inr (by decide)) rfl rfl rfl
  exact ⟨ha.2.1 (by decide) (by decide), (hb.1 (Or.inl rfl)).1, (hb.1 (Or.inl rfl)).2.1⟩

end OracleNif
